import Mathlib

/-!
Verification of the case-parallel evaluation pipeline of the
extreme-weather-bench paper repository.

Shallow embedding of the relevant parts of the source:
- `DateInterval.contains` / `DateInterval.overlaps` from `src/data/util.py`
  (identical copy in `src/data/aifs_util.py`); `datetime.date` values are
  modelled as integers under an order-preserving encoding.
- the tropical-cyclone track driver `src/plots/compute_tc_tracks.py`:
  `process_case`, `run_tc_tracker`, the HRES fallback merge of its
  `__main__` block, and `update_tc_dict`.
- the early/late date partition and the `pd.concat` union of result tables
  from `src/data/run_tc_cases.py` and `src/data/run_heat_cases.py`.

The external evaluation library's `evaluate.run_pipeline` is abstracted as a
function parameter that either returns data or raises (`Except`); the joblib
dispatch in `run_tc_tracker` maps the worker over the case list and, like
joblib's loky backend, propagates the first worker exception as a failure of
the whole batch.
-/

/-- Date encoded as an integer (order-preserving, e.g. proleptic ordinal or
yyyymmdd); the source code only compares dates. -/
abbrev Date := Int

/-- Embedding of `DateInterval` from `src/data/util.py`. The dataclass does
not constrain `start_date` against `end_date`. -/
structure DateInterval where
  start_date : Date
  end_date : Date
deriving DecidableEq, Repr

namespace DateInterval

/-- Embedding of `DateInterval.contains`: `(self.start_date <= other.start_date)
and (self.end_date >= other.end_date)`. -/
def contains (self other : DateInterval) : Bool :=
  (self.start_date ≤ other.start_date) && (self.end_date ≥ other.end_date)

/-- Embedding of `DateInterval.overlaps`: `(self.start_date <= other.end_date)
and (self.end_date >= other.start_date)`. -/
def overlaps (self other : DateInterval) : Bool :=
  (self.start_date ≤ other.end_date) && (self.end_date ≥ other.start_date)

end DateInterval

/-- Case record as used by the drivers: only `case_id_number`, `start_date`
and `end_date` are consulted by the embedded code. -/
structure Case where
  case_id_number : Nat
  start_date : Date
  end_date : Date
deriving DecidableEq, Repr

/-- Embedding of `cases.IndividualCaseCollection`: a wrapper holding the list
of cases (`.cases`). -/
structure IndividualCaseCollection where
  cases : List Case
deriving DecidableEq, Repr

/-- Model of the evaluation library's
`ewb_cases.select_cases("case_id_number", ids)` as used at
`compute_tc_tracks.py:183`: keep the cases whose `case_id_number` is in
`ids`. -/
def select_cases_by_id (coll : IndividualCaseCollection) (ids : List Nat) :
    IndividualCaseCollection :=
  ⟨coll.cases.filter (fun c => c.case_id_number ∈ ids)⟩

/-- Partition cutoff `pd.Timestamp("2023-01-01")` of `run_tc_cases.py:92` and
`run_heat_cases.py:292`, under the yyyymmdd integer date encoding. -/
def hresCutoff : Date := 20230101

/-- Embedding of `run_tc_cases.py:91`/`run_heat_cases.py:292`:
`IndividualCaseCollection([i for i in ewb_cases.cases if i.end_date < pd.Timestamp("2023-01-01")])`. -/
def early_cases (ewb_cases : IndividualCaseCollection) : IndividualCaseCollection :=
  ⟨ewb_cases.cases.filter (fun i => i.end_date < hresCutoff)⟩

/-- Embedding of `run_tc_cases.py:94`/`run_heat_cases.py:295`:
`IndividualCaseCollection([i for i in ewb_cases.cases if i.start_date > pd.Timestamp("2023-01-01")])`. -/
def later_cases (ewb_cases : IndividualCaseCollection) : IndividualCaseCollection :=
  ⟨ewb_cases.cases.filter (fun i => i.start_date > hresCutoff)⟩

/-- Return value of `process_case` (`compute_tc_tracks.py:45`): the tuple
`(case.case_id_number, model_name, target_data, forecast_data)`. The forecast
payload is a list so that the drivers' `len(r[3])` emptiness test is
meaningful. -/
structure TCOutcome (α β : Type) where
  case_id : Nat
  model_name : String
  target_data : α
  forecast_data : List β
deriving DecidableEq, Repr

/-- Embedding of `process_case` (`compute_tc_tracks.py:22`): run the target
pipeline, then the forecast pipeline, and return the outcome tuple. The two
`evaluate.run_pipeline` calls are abstracted as the function parameters
`target_pipeline` and `forecast_pipeline`; a raised exception is an
`Except.error`, which `process_case` does not catch. -/
def process_case {ε α β : Type} (target_pipeline : Case → Except ε α)
    (forecast_pipeline : Case → Except ε (List β)) (case : Case)
    (model_name : String) : Except ε (TCOutcome α β) :=
  match target_pipeline case with
  | .error e => .error e
  | .ok target_data =>
    match forecast_pipeline case with
    | .error e => .error e
    | .ok forecast_data =>
      .ok ⟨case.case_id_number, model_name, target_data, forecast_data⟩

/-- Map a fallible worker over a list, propagating the first raised exception
as a failure of the whole run (the behaviour of joblib's loky backend used by
`run_tc_tracker`). -/
def mapExcept {ε σ τ : Type} (f : σ → Except ε τ) : List σ → Except ε (List τ)
  | [] => .ok []
  | x :: xs =>
    match f x with
    | .error e => .error e
    | .ok y =>
      match mapExcept f xs with
      | .error e => .error e
      | .ok ys => .ok (y :: ys)

/-- Embedding of `run_tc_tracker` (`compute_tc_tracks.py:48`): dispatch
`process_case` once per case of the collection. -/
def run_tc_tracker {ε α β : Type} (target_pipeline : Case → Except ε α)
    (forecast_pipeline : Case → Except ε (List β))
    (ewb_cases : IndividualCaseCollection) (model_name : String) :
    Except ε (List (TCOutcome α β)) :=
  mapExcept (fun case => process_case target_pipeline forecast_pipeline case model_name)
    ewb_cases.cases

/-- Embedding of the fallback merge at `compute_tc_tracks.py:190`:
`results = [r for r in results if len(r[3]) > 0] + bb_results`. -/
def mergeResults {α β : Type} (results bb_results : List (TCOutcome α β)) :
    List (TCOutcome α β) :=
  results.filter (fun r => r.forecast_data.length > 0) ++ bb_results

/-- Embedding of the empty-case selection at `compute_tc_tracks.py:176`:
`empty_cases = [r for r in results if len(r[3]) == 0]`. -/
def empty_cases_of {α β : Type} (results : List (TCOutcome α β)) :
    List (TCOutcome α β) :=
  results.filter (fun r => r.forecast_data.length = 0)

/-- Row of a pandas result table as produced by `ExtremeWeatherBench.run`,
keyed by case, metric and lead time. -/
structure ResultRow where
  case_id : Nat
  metric : String
  lead_time : Nat
  value : Int
deriving DecidableEq, Repr

/-- Key `(case_id, metric, lead_time)` of a `ResultRow`. -/
def rowKey (r : ResultRow) : Nat × String × Nat :=
  (r.case_id, r.metric, r.lead_time)

/-- Embedding of `pd.concat([hres_results, bb_hres_results])`
(`run_tc_cases.py:107`, `run_heat_cases.py:323`) with pandas defaults
(`verify_integrity=False`): plain row-wise concatenation keeping every row of
both tables. -/
def unionPartitions (tableA tableB : List ResultRow) : List ResultRow :=
  tableA ++ tableB

/-- Observable content of the checkpoint path: `none` when the file is
absent, otherwise the byte string it holds. -/
abbrev FileState := Option (List Nat)

/-- Effect model of `pickle.dump(obj, open(path, "wb"))`
(`compute_tc_tracks.py:87`, and `.to_pickle` in the `run_*_cases.py`
drivers): the sequence of contents observable at the final checkpoint path.
Opening the path with mode `"wb"` first truncates it to length zero; the
pickled payload bytes are then written. No temporary file and no rename are
involved. -/
def pickle_dump_wb_trace (payload : List Nat) : List FileState :=
  [some [], some payload]

/-- Specification-side predicate (from the spec's words, §4.6): a write is
atomic-replace for an observer when every observable state of the final path
during the write is either the old content or the complete new content. -/
def atomicReplaceObservable (old new : FileState) (trace : List FileState) : Prop :=
  ∀ s ∈ trace, s = old ∨ s = new

/-- Value of one `tc_dict[case_id]` entry in `update_tc_dict`
(`compute_tc_tracks.py:80`): `{"target_data": None, "forecast_data": {}}`,
with the inner `forecast_data` dict modelled as a lookup function from model
name to payload. -/
structure TCEntry (α γ : Type) where
  target_data : Option α
  forecast_data : String → Option γ

/-- Model of the Python dict `tc_dict` as a lookup function from case id to
entry (`case_id not in tc_dict` is `d case_id = none`). -/
abbrev TCDict (α γ : Type) := Nat → Option (TCEntry α γ)

/-- One iteration of the loop body of `update_tc_dict`
(`compute_tc_tracks.py:78`): create the entry if absent, set `target_data`
only if still `None`, and set `forecast_data[model_name]`. -/
def update_tc_case {α β : Type} (tc_dict : TCDict α (List β)) (model_name : String)
    (r : TCOutcome α β) : TCDict α (List β) :=
  let e0 : TCEntry α (List β) :=
    match tc_dict r.case_id with
    | none => ⟨none, fun _ => none⟩
    | some e => e
  let e1 : TCEntry α (List β) :=
    match e0.target_data with
    | none => { e0 with target_data := some r.target_data }
    | some _ => e0
  let e2 : TCEntry α (List β) :=
    { e1 with
      forecast_data := fun m => if m = model_name then some r.forecast_data
        else e1.forecast_data m }
  fun k => if k = r.case_id then some e2 else tc_dict k

/-- Embedding of `update_tc_dict` (`compute_tc_tracks.py:67`): fold the loop
body over the result list. The `pickle.dump` side effect at
`compute_tc_tracks.py:87` is modelled separately by
`pickle_dump_wb_trace`. -/
def update_tc_dict {α β : Type} (tc_dict : TCDict α (List β))
    (results : List (TCOutcome α β)) (model_name : String) : TCDict α (List β) :=
  results.foldl (fun d r => update_tc_case d model_name r) tc_dict

/-- Target payload recorded for a case, if any. -/
def entry_target {α γ : Type} : Option (TCEntry α γ) → Option α
  | none => none
  | some e => e.target_data

/-- Forecast payload recorded for a case under a model name, if any. -/
def entry_forecast {α γ : Type} : Option (TCEntry α γ) → String → Option γ
  | none, _ => none
  | some e, m => e.forecast_data m

/-! ## Helper lemmas -/

/-- A successful `process_case` outcome carries the case's `case_id_number`. -/
theorem process_case_ok_case_id {ε α β : Type} (tp : Case → Except ε α)
    (fp : Case → Except ε (List β)) (c : Case) (m : String) (r : TCOutcome α β)
    (h : process_case tp fp c m = .ok r) : r.case_id = c.case_id_number := by
  unfold process_case at h
  cases htp : tp c with
  | error e => rw [htp] at h; cases h
  | ok t =>
    rw [htp] at h
    cases hfp : fp c with
    | error e => rw [hfp] at h; cases h
    | ok fd =>
      rw [hfp] at h
      cases h
      rfl

/-- The case-id list of a successful batch equals the case-id list of the
dispatched cases. -/
theorem mapExcept_process_case_ids {ε α β : Type} (tp : Case → Except ε α)
    (fp : Case → Except ε (List β)) (m : String) :
    ∀ (l : List Case) (rs : List (TCOutcome α β)),
      mapExcept (fun c => process_case tp fp c m) l = .ok rs →
      rs.map TCOutcome.case_id = l.map Case.case_id_number := by
  intro l
  induction l with
  | nil =>
    intro rs h
    cases h
    rfl
  | cons c cs ih =>
    intro rs h
    unfold mapExcept at h
    cases hg : process_case tp fp c m with
    | error e => rw [hg] at h; cases h
    | ok y =>
      rw [hg] at h
      cases ht : mapExcept (fun c => process_case tp fp c m) cs with
      | error e => rw [ht] at h; cases h
      | ok ys =>
        rw [ht] at h
        cases h
        simp only [List.map_cons]
        rw [ih ys ht, process_case_ok_case_id tp fp c m y hg]

/-- The case-id list of a successful `run_tc_tracker` run equals the case-id
list of the input collection. -/
theorem run_tc_tracker_ok_case_ids {ε α β : Type} (tp : Case → Except ε α)
    (fp : Case → Except ε (List β)) (coll : IndividualCaseCollection) (m : String)
    (rs : List (TCOutcome α β)) (h : run_tc_tracker tp fp coll m = .ok rs) :
    rs.map TCOutcome.case_id = coll.cases.map Case.case_id_number :=
  mapExcept_process_case_ids tp fp m coll.cases rs h

/-- Filtering membership in a nodup list by one of its sublists recovers the
sublist. -/
theorem filter_mem_of_sublist {γ : Type} [DecidableEq γ] :
    ∀ (K S : List γ), K.Nodup → S.Sublist K → K.filter (fun x => x ∈ S) = S := by
  intro K
  induction K with
  | nil =>
    intro S _ hS
    rw [List.sublist_nil.mp hS]
    rfl
  | cons k K ih =>
    intro S hnd hS
    have hkK : k ∉ K := (List.nodup_cons.mp hnd).1
    have hndK : K.Nodup := (List.nodup_cons.mp hnd).2
    cases hS with
    | cons a h' =>
      have hk : k ∉ S := fun hkS => hkK (h'.subset hkS)
      rw [List.filter_cons, if_neg (by simp [hk])]
      exact ih S hndK h'
    | cons₂ a h' =>
      rename_i S'
      rw [List.filter_cons, if_pos (by simp)]
      have hcongr : K.filter (fun x => x ∈ k :: S') = K.filter (fun x => x ∈ S') := by
        apply List.filter_congr
        intro x hx
        have hxk : x ≠ k := fun he => hkK (he ▸ hx)
        simp [hxk]
      rw [hcongr, ih S' hndK h']

/-- A worker exception at any case of the list aborts the whole `mapExcept`
batch. -/
theorem mapExcept_error_of_mem {ε σ τ : Type} (f : σ → Except ε τ) :
    ∀ (l : List σ) (x : σ), x ∈ l → (∃ e, f x = .error e) →
      ∃ e2, mapExcept f l = .error e2 := by
  intro l
  induction l with
  | nil => intro x hx _; cases hx
  | cons a as ih =>
    intro x hx he
    rcases List.mem_cons.mp hx with rfl | hx'
    · rcases he with ⟨e, he⟩
      exact ⟨e, by simp [mapExcept, he]⟩
    · cases hfa : f a with
      | error e => exact ⟨e, by simp [mapExcept, hfa]⟩
      | ok y =>
        rcases ih x hx' he with ⟨e2, h2⟩
        exact ⟨e2, by simp [mapExcept, hfa, h2]⟩

/-- The empty-case filter is the Boolean complement of the non-empty filter
used by the merge. -/
theorem empty_cases_of_eq_not_pos {α β : Type} (p : List (TCOutcome α β)) :
    empty_cases_of p
      = p.filter (fun r => !(decide (r.forecast_data.length > 0))) := by
  apply List.filter_congr
  intro r _
  cases r.forecast_data.length <;> simp

/-- When the fallback outcomes carry exactly the case ids of the empty
primary outcomes, the merged case-id list is a permutation of the primary
case-id list. -/
theorem mergeResults_caseIds_perm {α β : Type} (p f : List (TCOutcome α β))
    (hf : f.map TCOutcome.case_id = (empty_cases_of p).map TCOutcome.case_id) :
    ((mergeResults p f).map TCOutcome.case_id).Perm (p.map TCOutcome.case_id) := by
  unfold mergeResults
  rw [List.map_append, hf, empty_cases_of_eq_not_pos, ← List.map_append]
  exact (List.filter_append_perm _ p).map _

/-! ## Claims -/

/-- C9: the spec claims `contains(A,B) ⇒ overlaps(A,B)` for ALL
DateIntervals. Since the dataclass does not require
`start_date <= end_date`, this fails: with `A = B = {start 5, end 3}`,
`contains` holds but `overlaps` does not. -/
theorem contains_overlaps_counterexample :
    DateInterval.contains ⟨5, 3⟩ ⟨5, 3⟩ = true
    ∧ DateInterval.overlaps ⟨5, 3⟩ ⟨5, 3⟩ = false := by
  decide

/-- C9 (amended): for all DateIntervals A and B with B a proper interval
(`B.start_date ≤ B.end_date`), `contains(A,B)` implies `overlaps(A,B)`. -/
theorem contains_implies_overlaps_of_proper (a b : DateInterval)
    (hb : b.start_date ≤ b.end_date) (h : DateInterval.contains a b = true) :
    DateInterval.overlaps a b = true := by
  simp only [DateInterval.contains, Bool.and_eq_true, decide_eq_true_eq,
    ge_iff_le] at h
  simp only [DateInterval.overlaps, Bool.and_eq_true, decide_eq_true_eq,
    ge_iff_le]
  exact ⟨le_trans h.1 hb, le_trans hb h.2⟩

/-- Witness for C9: `A = [0,10]` contains the proper interval `B = [2,5]`,
and the amended theorem yields that they overlap. -/
theorem contains_implies_overlaps_witness :
    ((2 : Date) ≤ 5)
    ∧ DateInterval.contains ⟨0, 10⟩ ⟨2, 5⟩ = true
    ∧ DateInterval.overlaps ⟨0, 10⟩ ⟨2, 5⟩ = true :=
  ⟨by decide, by decide,
    contains_implies_overlaps_of_proper ⟨0, 10⟩ ⟨2, 5⟩ (by decide) (by decide)⟩

/-- C8: the spec claims a case whose `end_date` equals the partition cutoff
is assigned to exactly one of {early, late}, landing in early
(inclusive-early). The code uses strict comparisons on both sides, so such a
case (with `start_date ≤ end_date`) lands in NEITHER sub-collection. -/
theorem partition_boundary_counterexample :
    early_cases ⟨[⟨1, 20221230, 20230101⟩]⟩ = ⟨[]⟩
    ∧ later_cases ⟨[⟨1, 20221230, 20230101⟩]⟩ = ⟨[]⟩ := by
  decide

/-- C8 (amended): a case whose `end_date` equals the cutoff is
deterministically excluded from `early_cases`, and — when its dates are
ordered — from `later_cases` as well, so it is assigned to neither
sub-collection (the exclusion-by-design convention of §4.1, not
inclusive-early). -/
theorem partition_boundary_excluded (coll : IndividualCaseCollection) (c : Case)
    (hce : c.end_date = hresCutoff) :
    c ∉ (early_cases coll).cases
    ∧ (c.start_date ≤ c.end_date → c ∉ (later_cases coll).cases) := by
  constructor
  · intro hmem
    have hlt := (List.mem_filter.mp hmem).2
    simp only [decide_eq_true_eq] at hlt
    rw [hce] at hlt
    exact lt_irrefl _ hlt
  · intro hse hmem
    have hgt := (List.mem_filter.mp hmem).2
    simp only [gt_iff_lt, decide_eq_true_eq] at hgt
    rw [hce] at hse
    exact absurd (lt_of_lt_of_le hgt hse) (lt_irrefl _)

/-- Witness for C8: the boundary case `{id 1, 2022-12-30 .. 2023-01-01}` is in
neither partition of the one-case collection holding it. -/
theorem partition_boundary_excluded_witness :
    ((⟨1, 20221230, 20230101⟩ : Case).end_date = hresCutoff)
    ∧ ((⟨1, 20221230, 20230101⟩ : Case) ∉
        (early_cases ⟨[⟨1, 20221230, 20230101⟩]⟩).cases
      ∧ ((⟨1, 20221230, 20230101⟩ : Case).start_date ≤
            (⟨1, 20221230, 20230101⟩ : Case).end_date →
          (⟨1, 20221230, 20230101⟩ : Case) ∉
            (later_cases ⟨[⟨1, 20221230, 20230101⟩]⟩).cases)) :=
  ⟨by decide, partition_boundary_excluded ⟨[⟨1, 20221230, 20230101⟩]⟩ _ (by decide)⟩

/-- C4: the spec claims the union of date-partitioned result tables raises or
flags on a duplicate `(case_id, metric, lead_time)` key. The code's
`pd.concat` (default `verify_integrity=False`) silently keeps both rows: on
two one-row tables sharing a key, the union holds the key twice and no error
or flag exists. -/
theorem unionPartitions_duplicate_counterexample :
    ((unionPartitions [⟨1, "landfall", 0, 5⟩] [⟨1, "landfall", 0, 6⟩]).map
        rowKey).count (1, "landfall", 0) = 2
    ∧ ¬ ((unionPartitions [⟨1, "landfall", 0, 5⟩] [⟨1, "landfall", 0, 6⟩]).map
        rowKey).Nodup
    ∧ unionPartitions [⟨1, "landfall", 0, 5⟩] [⟨1, "landfall", 0, 6⟩]
        = [⟨1, "landfall", 0, 5⟩, ⟨1, "landfall", 0, 6⟩] := by
  refine ⟨by decide, by decide, by decide⟩

/-- C4 (amended): `unionPartitions` (the `pd.concat` of the drivers) keeps
every row of both tables — the multiplicity of each
`(case_id, metric, lead_time)` key in the union is the sum of its
multiplicities in the inputs; duplicates are neither raised on, flagged, nor
overwritten. -/
theorem unionPartitions_counts_add (tableA tableB : List ResultRow)
    (k : Nat × String × Nat) :
    ((unionPartitions tableA tableB).map rowKey).count k
      = (tableA.map rowKey).count k + (tableB.map rowKey).count k := by
  simp [unionPartitions, List.count_append]

/-- C5: the spec claims checkpoint writes go to a temporary file and are
renamed over the final path. The code writes the final path in place with
`open(path, "wb")`, whose first observable state is the truncated (empty)
file — neither the old nor the new content. -/
theorem checkpoint_write_not_atomic_counterexample :
    ¬ atomicReplaceObservable (some [1]) (some [2]) (pickle_dump_wb_trace [2]) := by
  intro h
  rcases h (some []) (by simp [pickle_dump_wb_trace]) with h' | h' <;> simp at h'

/-- C5 (amended): the in-place checkpoint write is not atomic-replace — for
any previous content other than the empty file and any non-empty payload, the
write exposes a truncated intermediate state at the final path — though the
final state does hold the complete new payload (re-saving overwrites). -/
theorem checkpoint_write_truncates_then_overwrites (old : FileState)
    (payload : List Nat) (hold : old ≠ some []) (hp : payload ≠ []) :
    ¬ atomicReplaceObservable old (some payload) (pickle_dump_wb_trace payload)
    ∧ (pickle_dump_wb_trace payload).getLast? = some (some payload) := by
  constructor
  · intro h
    rcases h (some []) (by simp [pickle_dump_wb_trace]) with h' | h'
    · exact hold h'.symm
    · exact hp (by simpa using h'.symm)
  · rfl

/-- Witness for C5: with previous content `[1]` and payload `[2]`, the write
trace is not atomic-replace yet ends with the payload. -/
theorem checkpoint_write_truncates_witness :
    ((some [1] : FileState) ≠ some [])
    ∧ (([2] : List Nat) ≠ [])
    ∧ (¬ atomicReplaceObservable (some [1]) (some [2]) (pickle_dump_wb_trace [2])
      ∧ (pickle_dump_wb_trace [2]).getLast? = some (some [2])) :=
  ⟨by decide, by decide,
    checkpoint_write_truncates_then_overwrites (some [1]) [2] (by decide) (by decide)⟩

/-- C2: for every case collection (any size, including zero and one), a
returning `run_tc_tracker` yields outcomes whose set of case ids exactly
equals the set of `case_id_number`s of the input cases: no case is dropped
and no foreign case id appears. -/
theorem run_tc_tracker_case_id_set {ε α β : Type} (tp : Case → Except ε α)
    (fp : Case → Except ε (List β)) (coll : IndividualCaseCollection)
    (m : String) (rs : List (TCOutcome α β))
    (h : run_tc_tracker tp fp coll m = .ok rs) :
    (rs.map TCOutcome.case_id).toFinset
      = (coll.cases.map Case.case_id_number).toFinset := by
  rw [run_tc_tracker_ok_case_ids tp fp coll m rs h]

/-- Target pipeline that always succeeds, for concrete runs. -/
def tcOkTarget : Case → Except Nat Nat := fun _ => .ok 0

/-- Forecast pipeline that always succeeds with non-empty data. -/
def tcOkForecast : Case → Except Nat (List Nat) := fun _ => .ok [1]

/-- Witness for C2: a two-case collection maps to outcomes carrying exactly
its case ids. -/
theorem run_tc_tracker_case_id_set_witness :
    run_tc_tracker tcOkTarget tcOkForecast ⟨[⟨4, 0, 0⟩, ⟨9, 0, 0⟩]⟩ "GC"
      = Except.ok [⟨4, "GC", 0, [1]⟩, ⟨9, "GC", 0, [1]⟩]
    ∧ (([⟨4, "GC", 0, [1]⟩, ⟨9, "GC", 0, [1]⟩] :
          List (TCOutcome Nat Nat)).map TCOutcome.case_id).toFinset
      = (([⟨4, 0, 0⟩, ⟨9, 0, 0⟩] : List Case).map Case.case_id_number).toFinset :=
  ⟨rfl, run_tc_tracker_case_id_set tcOkTarget tcOkForecast ⟨[⟨4, 0, 0⟩, ⟨9, 0, 0⟩]⟩
    "GC" _ rfl⟩

/-- Forecast pipeline whose worker raises exception `0` on case 1 and
succeeds elsewhere. -/
def tcBadForecast : Case → Except Nat (List Nat) :=
  fun c => if c.case_id_number = 1 then .error 0 else .ok [5]

/-- C6: the spec claims a worker exception is captured at the scheduler
boundary and converted into a `Failed` outcome for that case only, siblings
unaffected. In the code neither `process_case` nor `run_tc_tracker` catches
anything: with two cases where case 1's worker raises, the exception
propagates out of the whole batch and case 2 receives no outcome. -/
theorem worker_exception_counterexample :
    run_tc_tracker tcOkTarget tcBadForecast ⟨[⟨1, 0, 0⟩, ⟨2, 0, 0⟩]⟩ "M"
      = Except.error 0 := rfl

/-- C6 (amended): a worker exception for any case of the batch is NOT
captured: it propagates out of `run_tc_tracker` as a failure of the whole
batch, so no outcome list (and no per-case `Failed` marker) is produced. -/
theorem worker_exception_aborts_batch {ε α β : Type} (tp : Case → Except ε α)
    (fp : Case → Except ε (List β)) (coll : IndividualCaseCollection)
    (m : String) (c : Case) (e : ε) (hc : c ∈ coll.cases)
    (he : process_case tp fp c m = .error e) :
    ∃ e2, run_tc_tracker tp fp coll m = .error e2 :=
  mapExcept_error_of_mem _ coll.cases c hc ⟨e, he⟩

/-- Witness for C6 (amended): the concrete two-case batch with a raising
worker on case 1 errors as a whole. -/
theorem worker_exception_aborts_batch_witness :
    ((⟨1, 0, 0⟩ : Case) ∈
        (⟨[⟨1, 0, 0⟩, ⟨2, 0, 0⟩]⟩ : IndividualCaseCollection).cases)
    ∧ ∃ e2, run_tc_tracker tcOkTarget tcBadForecast
        ⟨[⟨1, 0, 0⟩, ⟨2, 0, 0⟩]⟩ "M" = Except.error e2 :=
  ⟨by decide, worker_exception_aborts_batch tcOkTarget tcBadForecast
    ⟨[⟨1, 0, 0⟩, ⟨2, 0, 0⟩]⟩ "M" ⟨1, 0, 0⟩ 0 (by decide) rfl⟩

/-- C3: the spec claims `merge(P, merge(P,F)) == merge(P,F)`. The code's
merge concatenates the non-empty primaries with the fallback list, so
re-merging duplicates every non-empty primary outcome: already with
`P = [A:Success]` and `F = []` the re-merge holds A twice. -/
theorem merge_not_idempotent_counterexample :
    mergeResults [(⟨1, "HRES", 0, [7]⟩ : TCOutcome Nat Nat)]
        (mergeResults [⟨1, "HRES", 0, [7]⟩] [])
      ≠ mergeResults [(⟨1, "HRES", 0, [7]⟩ : TCOutcome Nat Nat)] [] := by
  decide

/-- C3 (amended): re-merging is idempotent exactly when the primary list has
no non-empty outcome: `merge(P, merge(P,F)) = merge(P,F)` iff the non-empty
filter of P is empty; otherwise the non-empty primaries are duplicated. -/
theorem merge_idempotent_iff_no_nonempty {α β : Type}
    (p f : List (TCOutcome α β)) :
    mergeResults p (mergeResults p f) = mergeResults p f
      ↔ p.filter (fun r => r.forecast_data.length > 0) = [] := by
  unfold mergeResults
  constructor
  · intro h
    have hl := congrArg List.length h
    simp only [List.length_append] at hl
    have h0 : (p.filter (fun r => r.forecast_data.length > 0)).length = 0 := by
      omega
    exact List.length_eq_zero.mp h0
  · intro h
    rw [h]
    simp

/-- C7: fallback dispatch re-runs exactly the empty subset: for a primary
run over a collection with distinct case ids, the sub-collection selected by
the empty case ids — the cases the fallback `run_tc_tracker` dispatches one
`process_case` invocation each — has exactly as many cases as there are
empty primary outcomes. -/
theorem fallback_invocation_count {ε α β : Type} (tp : Case → Except ε α)
    (fp : Case → Except ε (List β)) (coll : IndividualCaseCollection)
    (m : String) (rs : List (TCOutcome α β))
    (hnd : (coll.cases.map Case.case_id_number).Nodup)
    (h : run_tc_tracker tp fp coll m = .ok rs) :
    (select_cases_by_id coll
        ((empty_cases_of rs).map TCOutcome.case_id)).cases.length
      = (empty_cases_of rs).length := by
  have hK := run_tc_tracker_ok_case_ids tp fp coll m rs h
  have hsub : ((empty_cases_of rs).map TCOutcome.case_id).Sublist
      (coll.cases.map Case.case_id_number) := by
    rw [← hK]
    exact List.Sublist.map _ (List.filter_sublist rs)
  have hfil := filter_mem_of_sublist (coll.cases.map Case.case_id_number)
      ((empty_cases_of rs).map TCOutcome.case_id) hnd hsub
  have hmapfil : (coll.cases.map Case.case_id_number).filter
        (fun x => x ∈ (empty_cases_of rs).map TCOutcome.case_id)
      = (coll.cases.filter
          (fun c => c.case_id_number ∈
            (empty_cases_of rs).map TCOutcome.case_id)).map
          Case.case_id_number :=
    List.filter_map _ _
  have hlen := congrArg List.length (hmapfil.symm.trans hfil)
  simpa [select_cases_by_id, List.length_map] using hlen

/-- Forecast pipeline that is empty exactly on case ids 3, 5 and 7. -/
def tcThreeEmptyForecast : Case → Except Nat (List Nat) :=
  fun c => .ok (if c.case_id_number ∈ [3, 5, 7] then [] else [1])

/-- Ten-case collection with case ids 1..10. -/
def collTen : IndividualCaseCollection :=
  ⟨[⟨1, 0, 0⟩, ⟨2, 0, 0⟩, ⟨3, 0, 0⟩, ⟨4, 0, 0⟩, ⟨5, 0, 0⟩, ⟨6, 0, 0⟩,
    ⟨7, 0, 0⟩, ⟨8, 0, 0⟩, ⟨9, 0, 0⟩, ⟨10, 0, 0⟩]⟩

/-- Primary outcomes of `collTen` under `tcThreeEmptyForecast`: exactly the
outcomes of cases 3, 5 and 7 are empty. -/
def rsTen : List (TCOutcome Nat Nat) :=
  [⟨1, "HRES", 0, [1]⟩, ⟨2, "HRES", 0, [1]⟩, ⟨3, "HRES", 0, []⟩,
   ⟨4, "HRES", 0, [1]⟩, ⟨5, "HRES", 0, []⟩, ⟨6, "HRES", 0, [1]⟩,
   ⟨7, "HRES", 0, []⟩, ⟨8, "HRES", 0, [1]⟩, ⟨9, "HRES", 0, [1]⟩,
   ⟨10, "HRES", 0, [1]⟩]

/-- Witness for C7: ten cases of which exactly 3 have empty primary outcomes
trigger a fallback sub-collection of exactly 3 cases, not 10. -/
theorem fallback_invocation_count_witness :
    ((collTen.cases.map Case.case_id_number).Nodup)
    ∧ (select_cases_by_id collTen
        ((empty_cases_of rsTen).map TCOutcome.case_id)).cases.length
      = (empty_cases_of rsTen).length
    ∧ (empty_cases_of rsTen).length = 3 :=
  ⟨by decide,
   fallback_invocation_count tcOkTarget tcThreeEmptyForecast collTen "HRES"
     rsTen (by decide) rfl,
   by decide⟩

/-- C1: for the HRES fallback merge, over a collection with distinct case
ids: when the primary run returns `rs` and the fallback run over the
empty-selected sub-collection returns `fb`, the merged list
`[r for r in rs if len(r[3]) > 0] + fb` has exactly one outcome per input
case id, and every non-empty (`Success`) primary outcome is kept in the
merge; fallback entries cover exactly the case ids whose primary outcome was
empty. -/
theorem hres_fallback_merge_unique {ε ε2 α β : Type} (tp : Case → Except ε α)
    (fp : Case → Except ε (List β)) (tp2 : Case → Except ε2 α)
    (fp2 : Case → Except ε2 (List β)) (coll : IndividualCaseCollection)
    (m : String) (rs fb : List (TCOutcome α β))
    (hnd : (coll.cases.map Case.case_id_number).Nodup)
    (h1 : run_tc_tracker tp fp coll m = .ok rs)
    (h2 : run_tc_tracker tp2 fp2
        (select_cases_by_id coll ((empty_cases_of rs).map TCOutcome.case_id)) m
        = .ok fb) :
    (∀ i ∈ coll.cases.map Case.case_id_number,
        ((mergeResults rs fb).map TCOutcome.case_id).count i = 1)
    ∧ ∀ r ∈ rs, r.forecast_data.length > 0 → r ∈ mergeResults rs fb := by
  have hK := run_tc_tracker_ok_case_ids tp fp coll m rs h1
  have hfb := run_tc_tracker_ok_case_ids tp2 fp2 _ m fb h2
  have hsub : ((empty_cases_of rs).map TCOutcome.case_id).Sublist
      (coll.cases.map Case.case_id_number) := by
    rw [← hK]
    exact List.Sublist.map _ (List.filter_sublist rs)
  have hfil := filter_mem_of_sublist (coll.cases.map Case.case_id_number)
      ((empty_cases_of rs).map TCOutcome.case_id) hnd hsub
  have hmapfil : (coll.cases.map Case.case_id_number).filter
        (fun x => x ∈ (empty_cases_of rs).map TCOutcome.case_id)
      = (coll.cases.filter
          (fun c => c.case_id_number ∈
            (empty_cases_of rs).map TCOutcome.case_id)).map
          Case.case_id_number :=
    List.filter_map _ _
  have hsel : fb.map TCOutcome.case_id
      = (empty_cases_of rs).map TCOutcome.case_id := by
    rw [hfb]
    exact hmapfil.symm.trans hfil
  have hperm := mergeResults_caseIds_perm rs fb hsel
  constructor
  · intro i hi
    calc List.count i ((mergeResults rs fb).map TCOutcome.case_id)
        = List.count i (rs.map TCOutcome.case_id) := hperm.count_eq i
      _ = 1 := by rw [hK]; exact List.count_eq_one_of_mem hnd hi
  · intro r hr hpos
    exact List.mem_append_left _ (List.mem_filter.mpr ⟨hr, by simpa using hpos⟩)

/-- Forecast pipeline that is empty exactly on case id 2. -/
def tcEmptyOn2Forecast : Case → Except Nat (List Nat) :=
  fun c => .ok (if c.case_id_number = 2 then [] else [7])

/-- Fallback forecast pipeline succeeding with data `[9]`. -/
def tcFallbackForecast : Case → Except Nat (List Nat) := fun _ => .ok [9]

/-- Witness for C1: primary `[A=1:Success, B=2:Empty]`, fallback
`[B:Success']` — each case id has exactly one merged outcome and the merge
equals `[A:Success, B:Success']`. -/
theorem hres_fallback_merge_unique_witness :
    ((mergeResults [⟨1, "HRES", 0, [7]⟩, ⟨2, "HRES", 0, ([] : List Nat)⟩]
        [⟨2, "HRES", 0, [9]⟩]).map TCOutcome.case_id).count 2 = 1
    ∧ mergeResults [(⟨1, "HRES", 0, [7]⟩ : TCOutcome Nat Nat),
          ⟨2, "HRES", 0, []⟩] [⟨2, "HRES", 0, [9]⟩]
      = [⟨1, "HRES", 0, [7]⟩, ⟨2, "HRES", 0, [9]⟩] :=
  ⟨(hres_fallback_merge_unique tcOkTarget tcEmptyOn2Forecast tcOkTarget
      tcFallbackForecast ⟨[⟨1, 0, 0⟩, ⟨2, 0, 0⟩]⟩ "HRES"
      [⟨1, "HRES", 0, [7]⟩, ⟨2, "HRES", 0, []⟩] [⟨2, "HRES", 0, [9]⟩]
      (by decide) rfl rfl).1 2 (by decide),
   by decide⟩

/-- One loop iteration of `update_tc_dict` leaves every other case id's
entry unchanged. -/
theorem update_tc_case_ne_key {α β : Type} (d : TCDict α (List β)) (m : String)
    (r : TCOutcome α β) (k : Nat) (hk : k ≠ r.case_id) :
    update_tc_case d m r k = d k := by
  simp [update_tc_case, hk]

/-- One loop iteration of `update_tc_dict` leaves the forecast entries of
every other model name unchanged (also on a freshly created case entry). -/
theorem update_tc_case_other_model {α β : Type} (d : TCDict α (List β))
    (m : String) (r : TCOutcome α β) (k : Nat) (m' : String) (hm : m' ≠ m) :
    entry_forecast (update_tc_case d m r k) m' = entry_forecast (d k) m' := by
  by_cases hk : k = r.case_id
  · subst hk
    cases hd : d r.case_id with
    | none =>
      simp [update_tc_case, hd, entry_forecast, hm]
    | some e =>
      cases ht : e.target_data with
      | none => simp [update_tc_case, hd, ht, entry_forecast, hm]
      | some t => simp [update_tc_case, hd, ht, entry_forecast, hm]
  · rw [update_tc_case_ne_key d m r k hk]

/-- One loop iteration of `update_tc_dict` never changes a `target_data`
that is already set. -/
theorem update_tc_case_target_mono {α β : Type} (d : TCDict α (List β))
    (m : String) (r : TCOutcome α β) (k : Nat) (t : α)
    (h : entry_target (d k) = some t) :
    entry_target (update_tc_case d m r k) = some t := by
  by_cases hk : k = r.case_id
  · subst hk
    cases hd : d r.case_id with
    | none => rw [hd] at h; simp [entry_target] at h
    | some e =>
      rw [hd] at h
      simp only [entry_target] at h
      simp [update_tc_case, hd, h, entry_target]
  · rw [update_tc_case_ne_key d m r k hk]
    exact h

/-- `update_tc_dict` leaves entries of case ids absent from the results
unchanged. -/
theorem update_tc_dict_ne_key {α β : Type} (m : String) :
    ∀ (rs : List (TCOutcome α β)) (d : TCDict α (List β)) (k : Nat),
      k ∉ rs.map TCOutcome.case_id → update_tc_dict d rs m k = d k := by
  intro rs
  induction rs with
  | nil => intro d k _; rfl
  | cons r rs ih =>
    intro d k hk
    simp only [List.map_cons, List.mem_cons, not_or] at hk
    show update_tc_dict (update_tc_case d m r) rs m k = d k
    rw [ih (update_tc_case d m r) k hk.2, update_tc_case_ne_key d m r k hk.1]

/-- `update_tc_dict` leaves the forecast entries of every other model name
unchanged. -/
theorem update_tc_dict_other_model {α β : Type} (m m' : String) (hm : m' ≠ m) :
    ∀ (rs : List (TCOutcome α β)) (d : TCDict α (List β)) (k : Nat),
      entry_forecast (update_tc_dict d rs m k) m' = entry_forecast (d k) m' := by
  intro rs
  induction rs with
  | nil => intro d k; rfl
  | cons r rs ih =>
    intro d k
    show entry_forecast (update_tc_dict (update_tc_case d m r) rs m k) m' = _
    rw [ih (update_tc_case d m r) k, update_tc_case_other_model d m r k m' hm]

/-- `update_tc_dict` never changes a `target_data` that is already set. -/
theorem update_tc_dict_target_mono {α β : Type} (m : String) :
    ∀ (rs : List (TCOutcome α β)) (d : TCDict α (List β)) (k : Nat) (t : α),
      entry_target (d k) = some t →
      entry_target (update_tc_dict d rs m k) = some t := by
  intro rs
  induction rs with
  | nil => intro d k t h; exact h
  | cons r rs ih =>
    intro d k t h
    show entry_target (update_tc_dict (update_tc_case d m r) rs m k) = some t
    exact ih (update_tc_case d m r) k t (update_tc_case_target_mono d m r k t h)

/-- C10: frame property of the incremental checkpoint update. For every
prior dictionary state, result list and model name, `update_tc_dict` (a)
leaves entries of case ids not present in the results unchanged, (b) leaves
the `forecast_data` entries of every model name other than the given one
unchanged for every case id, and (c) leaves any already-set (non-None)
`target_data` unchanged — so `target_data` is written at most once per case,
by the first model that supplies it. -/
theorem update_tc_dict_frame {α β : Type} (d : TCDict α (List β))
    (rs : List (TCOutcome α β)) (m : String) :
    (∀ k, k ∉ rs.map TCOutcome.case_id → update_tc_dict d rs m k = d k)
    ∧ (∀ k m', m' ≠ m →
        entry_forecast (update_tc_dict d rs m k) m' = entry_forecast (d k) m')
    ∧ (∀ k t, entry_target (d k) = some t →
        entry_target (update_tc_dict d rs m k) = some t) :=
  ⟨fun k hk => update_tc_dict_ne_key m rs d k hk,
   fun k m' hm => update_tc_dict_other_model m m' hm rs d k,
   fun k t ht => update_tc_dict_target_mono m rs d k t ht⟩

/-- Prior dictionary state for the C10 witness: case 1 holds a target and an
AIFS forecast entry. -/
def tcDict0 : TCDict Nat (List Nat) :=
  fun k => if k = 1 then
    some ⟨some 5, fun m => if m = "AIFS" then some [3] else none⟩
  else none

/-- HRES results for the C10 witness: cases 1 and 2. -/
def tcResults0 : List (TCOutcome Nat Nat) :=
  [⟨1, "HRES", 10, [7]⟩, ⟨2, "HRES", 11, []⟩]

/-- Witness for C10: updating with HRES results for cases 1 and 2 leaves
case 99 absent, keeps case 1's AIFS forecast entry, and keeps case 1's
already-set target. -/
theorem update_tc_dict_frame_witness :
    ((99 : Nat) ∉ tcResults0.map TCOutcome.case_id)
    ∧ update_tc_dict tcDict0 tcResults0 "HRES" 99 = tcDict0 99
    ∧ ("AIFS" ≠ "HRES")
    ∧ entry_forecast (update_tc_dict tcDict0 tcResults0 "HRES" 1) "AIFS"
        = entry_forecast (tcDict0 1) "AIFS"
    ∧ entry_target (tcDict0 1) = some 5
    ∧ entry_target (update_tc_dict tcDict0 tcResults0 "HRES" 1) = some 5 :=
  ⟨by decide,
   (update_tc_dict_frame tcDict0 tcResults0 "HRES").1 99 (by decide),
   by decide,
   (update_tc_dict_frame tcDict0 tcResults0 "HRES").2.1 1 "AIFS" (by decide),
   rfl,
   (update_tc_dict_frame tcDict0 tcResults0 "HRES").2.2 1 5 rfl⟩
